import Mathlib

/-!
Shallow embedding of the voicememo-ssh-server core: the `SSHManager`
session registry (src/src/ssh-manager.ts) and the per-connection
WebSocket bridge handler (the `wss.on('connection')` message/event
handlers, src/src/ssh-manager.ts lines 310-509).

External effects (the node-ssh provider, the shell stream and the
WebSocket) are modelled explicitly: provider outcomes and
throw-injection flags are inputs (`Env`), emitted responses and
side effects on the shell/connection handles are outputs
(`List SSHResponse`, `List Effect`).
-/

/-- types.ts `SSHConnectionConfig`. -/
structure SSHConnectionConfig where
  host : String
  port : Nat
  username : String
  password : Option String
  privateKey : Option String
  passphrase : Option String
  deriving DecidableEq, Repr

/-- types.ts `SSHMessage`: the fields of a parsed inbound frame.
`type` is a raw string, as in the JS object (the switch has a default arm). -/
structure SSHMessage where
  type : String
  config : Option SSHConnectionConfig
  command : Option String
  cols : Option Nat
  rows : Option Nat
  deriving DecidableEq, Repr

/-- types.ts `SSHResponse` as a tagged union; `connected` optionally carries
`sessionId` (the bridge sends `sendResponse({ type: 'connected', sessionId })`). -/
inductive SSHResponse where
  | connected (sessionId : Option String)
  | data (data : String)
  | error (error : String)
  | disconnected
  deriving DecidableEq, Repr

/-- types.ts `SSHSession`. The `connection` and `shell` handles are opaque
tokens produced by the provider. -/
structure SSHSession where
  id : String
  connection : Nat
  shell : Option Nat
  isConnected : Bool
  deriving DecidableEq, Repr

/-- The `Map<string, SSHSession>` held by `SSHManager`, as an association
list with unique keys in insertion order. -/
abbrev Sessions := List (String × SSHSession)

/-- `Map.get`. -/
def mapGet : Sessions → String → Option SSHSession
  | [], _ => none
  | p :: t, k => if p.1 = k then some p.2 else mapGet t k

/-- `Map.set`: replace in place if the key exists, else append. -/
def mapSet : Sessions → String → SSHSession → Sessions
  | [], k, v => [(k, v)]
  | p :: t, k, v => if p.1 = k then (k, v) :: t else p :: mapSet t k v

/-- `Map.delete` (keys are unique, so removing every entry with the key
is the same as removing the entry). -/
def mapDelete : Sessions → String → Sessions
  | [], _ => []
  | p :: t, k => if p.1 = k then mapDelete t k else p :: mapDelete t k

/-- Observable side effects on the provider handles. -/
inductive Effect where
  | shellEnd (sid : String)
  | connDispose (sid : String)
  | shellWrite (cmd : String)
  | setWindow (rows cols : Nat)
  deriving DecidableEq, Repr

/-- `SSHManager.createSession`: the provider outcome (`ssh.connect`) is the
input `connectResult`; on provider failure the method throws
`SSH connection failed: ...` and registers nothing, on success it registers
a connected session with no shell yet. -/
def createSession (m : Sessions) (sessionId : String) (_config : SSHConnectionConfig)
    (connectResult : Except String Nat) : Except String (SSHSession × Sessions) :=
  match connectResult with
  | .error e => .error ("SSH connection failed: " ++ e)
  | .ok h =>
    let session : SSHSession :=
      { id := sessionId, connection := h, shell := none, isConnected := true }
    .ok (session, mapSet m sessionId session)

/-- `SSHManager.createShell`: requires a registered, connected session;
the provider outcome (`requestShell`) is the input `shellResult`; on provider
failure it throws `Failed to create shell: ...`, on success it attaches the
shell to the session. -/
def createShell (m : Sessions) (sessionId : String) (_cols _rows : Nat)
    (shellResult : Except String Nat) : Except String (Nat × Sessions) :=
  match mapGet m sessionId with
  | none => .error "Session not found or not connected"
  | some session =>
    if session.isConnected then
      match shellResult with
      | .error e => .error ("Failed to create shell: " ++ e)
      | .ok sh => .ok (sh, mapSet m sessionId { session with shell := some sh })
    else
      .error "Session not found or not connected"

/-- `SSHManager.resizeShell`: throws `Session or shell not found` when the
session or its shell is absent; otherwise calls `setWindow(rows, cols)`,
whose own failure is caught and logged inside the method
(`_setWindowThrows` is therefore unobservable). -/
def resizeShell (m : Sessions) (sessionId : String) (cols rows : Nat)
    (_setWindowThrows : Bool) : Except String (List Effect) :=
  match mapGet m sessionId with
  | none => .error "Session or shell not found"
  | some session =>
    match session.shell with
    | none => .error "Session or shell not found"
    | some _ => .ok [Effect.setWindow rows cols]

/-- `SSHManager.closeSession`: absent id is a no-op; otherwise
`shell.end()` (if a shell is attached) and `connection.dispose()` run inside
a try whose catch only logs, and the finally clause always deletes the id.
`endThrows` injects a throw from `shell.end()` (which then skips
`dispose`); a throw from `dispose` is likewise caught and changes nothing
observable. -/
def closeSession (m : Sessions) (sessionId : String)
    (endThrows _disposeThrows : Bool) : Sessions × List Effect :=
  match mapGet m sessionId with
  | none => (m, [])
  | some session =>
    match session.shell with
    | some _ =>
      if endThrows then
        (mapDelete m sessionId, [Effect.shellEnd sessionId])
      else
        (mapDelete m sessionId, [Effect.shellEnd sessionId, Effect.connDispose sessionId])
    | none =>
      (mapDelete m sessionId, [Effect.connDispose sessionId])

/-- `SSHManager.getSession`. -/
def getSession (m : Sessions) (sessionId : String) : Option SSHSession :=
  mapGet m sessionId

theorem mapGet_mapSet_self (m : Sessions) (k : String) (v : SSHSession) :
    mapGet (mapSet m k v) k = some v := by
  induction m with
  | nil => simp [mapGet, mapSet]
  | cons p t ih =>
    by_cases hp : p.1 = k
    · simp [mapGet, mapSet, hp]
    · simp [mapGet, mapSet, hp, ih]

theorem mapGet_mapDelete_self (m : Sessions) (k : String) :
    mapGet (mapDelete m k) k = none := by
  induction m with
  | nil => rfl
  | cons p t ih =>
    by_cases hp : p.1 = k
    · simp [mapDelete, hp, ih]
    · simp [mapDelete, mapGet, hp, ih]

theorem closeSession_sessions_eq_mapDelete (m : Sessions) (k : String)
    (eT dT : Bool) (s : SSHSession) (hs : mapGet m k = some s) :
    (closeSession m k eT dT).1 = mapDelete m k := by
  cases hshell : s.shell <;> cases eT <;> simp [closeSession, hs, hshell]

theorem mapGet_closeSession_self (m : Sessions) (k : String) (eT dT : Bool) :
    mapGet (closeSession m k eT dT).1 k = none := by
  cases hg : mapGet m k with
  | none => simp [closeSession, hg]
  | some s =>
    cases hshell : s.shell <;> cases eT <;>
      simpa [closeSession, hg, hshell] using mapGet_mapDelete_self m k

/-- The `message.type` values the bridge's switch distinguishes
(every other string hits the default arm). -/
inductive MsgKind where
  | connect
  | command
  | resize
  | disconnect
  | unknown
  deriving DecidableEq, Repr

/-- Tag dispatch of `switch (message.type)`. -/
def msgKind (t : String) : MsgKind :=
  if t = "connect" then .connect
  else if t = "command" then .command
  else if t = "resize" then .resize
  else if t = "disconnect" then .disconnect
  else .unknown

/-- JS truthiness of an optional string: `!s` holds for `undefined` and `""`
(the guard `if (!message.command)`). -/
def jsFalsyStr : Option String → Bool
  | none => true
  | some s => s = ""

/-- JS `n || d` for an optional number: `undefined` and `0` both fall back
to the default (`message.cols || 80`). -/
def jsOrNat : Option Nat → Nat → Nat
  | none, d => d
  | some 0, d => d
  | some (n + 1), _ => n + 1

/-- Per-connection bridge state: the mutable `sessionId` binding of the
`wss.on('connection')` closure, the `SSHManager`'s session map, and the
WebSocket's open/closed readyState. -/
structure BridgeState where
  sessionId : Option String
  sessions : Sessions
  wsOpen : Bool
  deriving DecidableEq, Repr

/-- Outcomes of the external world during one handler run: the generated
session id, the provider results for `connect` / `requestShell` /
`shell.write`, and throw-injection flags for `setWindow`, `shell.end` and
`connection.dispose`. -/
structure Env where
  newSessionId : String
  connectResult : Except String Nat
  shellResult : Except String Nat
  writeResult : Except String Unit
  setWindowThrows : Bool
  endThrows : Bool
  disposeThrows : Bool
  deriving Repr

/-- `sendResponse`: writes the serialized response only when the WebSocket
readyState is OPEN; a send on a non-open socket is dropped. -/
def sendResponse (wsOpen : Bool) (r : SSHResponse) : List SSHResponse :=
  if wsOpen then [r] else []

/-- The `ws.on('message')` switch body, on an already-parsed message.
Returns the new bridge state, the responses passed to `sendResponse`
(in order), and the side effects on the provider handles. -/
def handleMessage (st : BridgeState) (msg : SSHMessage) (env : Env) :
    BridgeState × List SSHResponse × List Effect :=
  match msgKind msg.type with
  | .connect =>
    match msg.config with
    | none => (st, sendResponse st.wsOpen (.error "SSH configuration required"), [])
    | some config =>
      -- `sessionId = generateSessionId()` runs before the awaits, so the
      -- binding is updated even when establishment later fails.
      let sid := env.newSessionId
      match createSession st.sessions sid config env.connectResult with
      | .error e =>
        ({ st with sessionId := some sid },
         sendResponse st.wsOpen (.error e), [])
      | .ok (_, sessions1) =>
        match createShell sessions1 sid 80 24 env.shellResult with
        | .error e =>
          ({ st with sessionId := some sid, sessions := sessions1 },
           sendResponse st.wsOpen (.error e), [])
        | .ok (_, sessions2) =>
          ({ st with sessionId := some sid, sessions := sessions2 },
           sendResponse st.wsOpen (.connected (some sid)), [])
  | .command =>
    match st.sessionId with
    | none => (st, sendResponse st.wsOpen (.error "No active session"), [])
    | some sid =>
      if jsFalsyStr msg.command then
        (st, sendResponse st.wsOpen (.error "Command required"), [])
      else
        match mapGet st.sessions sid with
        | none => (st, sendResponse st.wsOpen (.error "Shell not available"), [])
        | some session =>
          match session.shell with
          | none => (st, sendResponse st.wsOpen (.error "Shell not available"), [])
          | some _ =>
            match env.writeResult with
            | .ok _ => (st, [], [Effect.shellWrite (msg.command.getD "")])
            | .error e =>
              (st, sendResponse st.wsOpen (.error e),
               [Effect.shellWrite (msg.command.getD "")])
  | .resize =>
    match st.sessionId with
    | none => (st, sendResponse st.wsOpen (.error "No active session"), [])
    | some sid =>
      match resizeShell st.sessions sid (jsOrNat msg.cols 80) (jsOrNat msg.rows 24)
          env.setWindowThrows with
      | .error _ => (st, [], [])  -- caught by the bare `console.error` catch
      | .ok effs => (st, [], effs)
  | .disconnect =>
    match st.sessionId with
    | some sid =>
      let r := closeSession st.sessions sid env.endThrows env.disposeThrows
      ({ st with sessionId := none, sessions := r.1 },
       sendResponse st.wsOpen .disconnected, r.2)
    | none => (st, sendResponse st.wsOpen .disconnected, [])
  | .unknown => (st, sendResponse st.wsOpen (.error "Unknown message type"), [])

/-- The full `ws.on('message')` handler: `JSON.parse` failure lands in the
outer catch, which emits `Invalid message format` and touches nothing else. -/
def handleFrame (st : BridgeState) (frame : Except String SSHMessage) (env : Env) :
    BridgeState × List SSHResponse × List Effect :=
  match frame with
  | .error _ => (st, sendResponse st.wsOpen (.error "Invalid message format"), [])
  | .ok msg => handleMessage st msg env

/-- The `shell.on('data')` observer: forwards the chunk when the WebSocket
is open (the handler checks readyState, as does `sendResponse`). -/
def onShellData (st : BridgeState) (chunk : String) : List SSHResponse :=
  if st.wsOpen then sendResponse st.wsOpen (.data chunk) else []

/-- The `shell.on('close')` observer: only when
`code !== 0 && code !== null` does it emit `disconnected` and (if a session
id is bound) close the session; a clean or codeless close does nothing. -/
def onShellClose (st : BridgeState) (code : Option Int) (_signal : Option String)
    (endThrows disposeThrows : Bool) : BridgeState × List SSHResponse × List Effect :=
  if code ≠ some 0 ∧ code ≠ none then
    match st.sessionId with
    | some sid =>
      let r := closeSession st.sessions sid endThrows disposeThrows
      ({ st with sessions := r.1 }, sendResponse st.wsOpen .disconnected, r.2)
    | none => (st, sendResponse st.wsOpen .disconnected, [])
  else
    (st, [], [])

/-- The `shell.on('error')` observer: emits `error` with the channel's
message, then (if a session id is bound) closes the session. -/
def onShellError (st : BridgeState) (errMsg : String)
    (endThrows disposeThrows : Bool) : BridgeState × List SSHResponse × List Effect :=
  match st.sessionId with
  | some sid =>
    let r := closeSession st.sessions sid endThrows disposeThrows
    ({ st with sessions := r.1 }, sendResponse st.wsOpen (.error errMsg), r.2)
  | none => (st, sendResponse st.wsOpen (.error errMsg), [])

theorem handleMessage_wsOpen (st : BridgeState) (msg : SSHMessage) (env : Env) :
    (handleMessage st msg env).1.wsOpen = st.wsOpen := by
  unfold handleMessage
  cases hk : msgKind msg.type
  case connect =>
    cases msg.config with
    | none => simp
    | some cfg =>
      cases hc : createSession st.sessions env.newSessionId cfg env.connectResult with
      | error e => simp [hc]
      | ok r =>
        cases hsh : createShell r.2 env.newSessionId 80 24 env.shellResult with
        | error e => simp [hc, hsh]
        | ok r2 => simp [hc, hsh]
  case command =>
    cases hsid : st.sessionId with
    | none => simp [hsid]
    | some sid =>
      cases hfal : jsFalsyStr msg.command
      · cases hg : mapGet st.sessions sid with
        | none => simp [hsid, hfal, hg]
        | some session =>
          cases hshell : session.shell <;> cases hw : env.writeResult <;>
            simp [hsid, hfal, hg, hshell, hw]
      · simp [hsid, hfal]
  case resize =>
    cases hsid : st.sessionId with
    | none => simp [hsid]
    | some sid =>
      cases hr : resizeShell st.sessions sid (jsOrNat msg.cols 80) (jsOrNat msg.rows 24)
        env.setWindowThrows <;> simp [hsid, hr]
  case disconnect =>
    cases hsid : st.sessionId <;> simp [hsid]
  case unknown => simp

/-- C1: on a shell channel close event with the bridge bound to a session
and the socket open, a clean or codeless exit (`code` zero or absent) emits
nothing and changes nothing, while a non-zero exit code emits exactly one
`disconnected` response and removes the session from the registry. -/
theorem shellClose_exit_code_asymmetry
    (st : BridgeState) (code : Option Int) (sig : Option String) (eT dT : Bool)
    (sid : String) (hsid : st.sessionId = some sid) (hws : st.wsOpen = true) :
    ((code = none ∨ code = some 0) → onShellClose st code sig eT dT = (st, [], [])) ∧
    (∀ c : Int, code = some c → c ≠ 0 →
      (onShellClose st code sig eT dT).2.1 = [SSHResponse.disconnected] ∧
      mapGet (onShellClose st code sig eT dT).1.sessions sid = none) := by
  constructor
  · intro h
    have hcond : ¬(code ≠ some 0 ∧ code ≠ none) := by
      rcases h with h | h <;> simp [h]
    simp [onShellClose, hcond]
  · intro c hc hcne
    have hcond : code ≠ some 0 ∧ code ≠ none := by
      subst hc
      exact ⟨by simp [hcne], by simp⟩
    rw [onShellClose, if_pos hcond, hsid]
    exact ⟨by simp [sendResponse, hws],
           by simpa using mapGet_closeSession_self st.sessions sid eT dT⟩

/-- C3: closing a session twice releases resources only on the first call:
after the first `closeSession` the id is gone, the second call returns the
registry unchanged with no release effects, the shell `end()` runs exactly
once (when a shell was attached) and `dispose()` at most once. -/
theorem closeSession_idempotent
    (m : Sessions) (sid : String) (e1 d1 e2 d2 : Bool) (s : SSHSession)
    (hs : mapGet m sid = some s) :
    mapGet (closeSession m sid e1 d1).1 sid = none ∧
    closeSession (closeSession m sid e1 d1).1 sid e2 d2 = ((closeSession m sid e1 d1).1, []) ∧
    (s.shell.isSome = true →
      ((closeSession m sid e1 d1).2 ++ (closeSession (closeSession m sid e1 d1).1 sid e2 d2).2).count
        (Effect.shellEnd sid) = 1) ∧
    ((closeSession m sid e1 d1).2 ++ (closeSession (closeSession m sid e1 d1).1 sid e2 d2).2).count
      (Effect.connDispose sid) ≤ 1 := by
  have h1 : mapGet (closeSession m sid e1 d1).1 sid = none :=
    mapGet_closeSession_self m sid e1 d1
  have h2 : closeSession (closeSession m sid e1 d1).1 sid e2 d2 =
      ((closeSession m sid e1 d1).1, []) := by
    rw [closeSession, h1]
  have h2e : (closeSession (closeSession m sid e1 d1).1 sid e2 d2).2 = [] := by
    rw [h2]
  refine ⟨h1, h2, ?_, ?_⟩
  · intro hshell
    obtain ⟨x, hx⟩ := Option.isSome_iff_exists.mp hshell
    rw [h2e, List.append_nil]
    cases e1
    · have hr1 : (closeSession m sid false d1).2 =
          [Effect.shellEnd sid, Effect.connDispose sid] := by
        simp [closeSession, hs, hx]
      rw [hr1]
      simp [List.count_cons, List.count_nil]
    · have hr1 : (closeSession m sid true d1).2 = [Effect.shellEnd sid] := by
        simp [closeSession, hs, hx]
      rw [hr1]
      simp [List.count_cons, List.count_nil]
  · rw [h2e, List.append_nil]
    cases hshell : s.shell
    · have hr1 : (closeSession m sid e1 d1).2 = [Effect.connDispose sid] := by
        cases e1 <;> simp [closeSession, hs, hshell]
      rw [hr1]
      simp [List.count_cons, List.count_nil]
    · cases e1
      · have hr1 : (closeSession m sid false d1).2 =
            [Effect.shellEnd sid, Effect.connDispose sid] := by
          simp [closeSession, hs, hshell]
        rw [hr1]
        simp [List.count_cons, List.count_nil]
      · have hr1 : (closeSession m sid true d1).2 = [Effect.shellEnd sid] := by
          simp [closeSession, hs, hshell]
        rw [hr1]
        simp [List.count_cons, List.count_nil]

/-- C4: on a shell channel error event with a session bound and the socket
open, the bridge emits one `error` response carrying the channel's message
and the session is removed from the registry. -/
theorem shellError_reports_and_removes
    (st : BridgeState) (errMsg : String) (eT dT : Bool) (sid : String)
    (hsid : st.sessionId = some sid) (hws : st.wsOpen = true) :
    (onShellError st errMsg eT dT).2.1 = [SSHResponse.error errMsg] ∧
    mapGet (onShellError st errMsg eT dT).1.sessions sid = none := by
  rw [onShellError, hsid]
  exact ⟨by simp [sendResponse, hws],
         by simpa using mapGet_closeSession_self st.sessions sid eT dT⟩

/-- C6: closing a session whose id is present always removes the id from
the registry, whatever throw behaviour `shell.end()` and
`connection.dispose()` exhibit; `closeSession` returns normally (it is a
total function of the fault flags) and the result is exactly the deletion. -/
theorem closeSession_removes_despite_release_errors
    (m : Sessions) (sid : String) (eT dT : Bool) (s : SSHSession)
    (hs : mapGet m sid = some s) :
    (closeSession m sid eT dT).1 = mapDelete m sid ∧
    mapGet (closeSession m sid eT dT).1 sid = none :=
  ⟨closeSession_sessions_eq_mapDelete m sid eT dT s hs,
   mapGet_closeSession_self m sid eT dT⟩

/-- C7: a `resize` message while a session id is bound never emits any
response (in particular no `error`), whatever the registry contents or the
`setWindow` outcome, and leaves the bridge state unchanged. -/
theorem resize_never_surfaces_errors
    (st : BridgeState) (msg : SSHMessage) (env : Env) (sid : String)
    (htype : msg.type = "resize") (hsid : st.sessionId = some sid) :
    (handleMessage st msg env).1 = st ∧ (handleMessage st msg env).2.1 = [] := by
  have hk : msgKind msg.type = .resize := by rw [htype]; decide
  rw [handleMessage, hk, hsid]
  cases hr : resizeShell st.sessions sid (jsOrNat msg.cols 80) (jsOrNat msg.rows 24)
      env.setWindowThrows <;> simp [hr]

/-- C8: a frame that fails to parse yields exactly one
`Invalid message format` error response when the socket is open, with the
bridge state (binding, registry, socket) unchanged and no side effects. -/
theorem parseFailure_single_error_no_change
    (st : BridgeState) (e : String) (env : Env) (hws : st.wsOpen = true) :
    handleFrame st (Except.error e) env =
      (st, [SSHResponse.error "Invalid message format"], []) := by
  simp [handleFrame, sendResponse, hws]

/-- C9: a `command` message whose command string is empty, with a session
bound and the socket open, emits one `Command required` error and performs
no shell write (the truthiness guard rejects `""` like an absent field). -/
theorem emptyCommand_rejected_without_write
    (st : BridgeState) (msg : SSHMessage) (env : Env) (sid : String)
    (htype : msg.type = "command") (hsid : st.sessionId = some sid)
    (hcmd : msg.command = some "") (hws : st.wsOpen = true) :
    handleMessage st msg env = (st, [SSHResponse.error "Command required"], []) := by
  have hk : msgKind msg.type = .command := by rw [htype]; decide
  have hfalsy : jsFalsyStr msg.command = true := by rw [hcmd]; rfl
  rw [handleMessage, hk, hsid]
  simp [hfalsy, sendResponse, hws]

/-- C10: a `disconnect` message with no session bound and the socket open
still emits exactly one `disconnected` response (not an `error`) and leaves
the registry and state unchanged. -/
theorem disconnect_without_session_still_acknowledged
    (st : BridgeState) (msg : SSHMessage) (env : Env)
    (htype : msg.type = "disconnect") (hsid : st.sessionId = none)
    (hws : st.wsOpen = true) :
    handleMessage st msg env = (st, [SSHResponse.disconnected], []) := by
  have hk : msgKind msg.type = .disconnect := by rw [htype]; decide
  rw [handleMessage, hk, hsid]
  simp [sendResponse, hws]

/-- C5: a `connect` message with a config, where both provider steps
succeed and the socket is open, emits exactly one `connected` response
carrying the generated session id, and the registry then holds that id
bound to the newly created session (connected, shell attached). -/
theorem connectSuccess_connected_with_id
    (st : BridgeState) (msg : SSHMessage) (env : Env) (cfg : SSHConnectionConfig)
    (h sh : Nat) (htype : msg.type = "connect") (hcfg : msg.config = some cfg)
    (hconn : env.connectResult = .ok h) (hshell : env.shellResult = .ok sh)
    (hws : st.wsOpen = true) :
    (handleMessage st msg env).2.1 = [SSHResponse.connected (some env.newSessionId)] ∧
    mapGet (handleMessage st msg env).1.sessions env.newSessionId =
      some { id := env.newSessionId, connection := h, shell := some sh, isConnected := true } ∧
    (handleMessage st msg env).1.sessionId = some env.newSessionId := by
  have hk : msgKind msg.type = .connect := by rw [htype]; decide
  have hc : createSession st.sessions env.newSessionId cfg env.connectResult =
      .ok ({ id := env.newSessionId, connection := h, shell := none, isConnected := true },
        mapSet st.sessions env.newSessionId
          { id := env.newSessionId, connection := h, shell := none, isConnected := true }) := by
    rw [hconn]
    rfl
  have hcs : createShell
      (mapSet st.sessions env.newSessionId
        { id := env.newSessionId, connection := h, shell := none, isConnected := true })
      env.newSessionId 80 24 env.shellResult =
      .ok (sh,
        mapSet (mapSet st.sessions env.newSessionId
            { id := env.newSessionId, connection := h, shell := none, isConnected := true })
          env.newSessionId
          { id := env.newSessionId, connection := h, shell := some sh, isConnected := true }) := by
    rw [createShell, mapGet_mapSet_self]
    simp [hshell]
  simp only [handleMessage, hk, hcfg, hc, hcs]
  exact ⟨by simp [sendResponse, hws], by simpa using mapGet_mapSet_self _ _ _, by simp⟩

/-- C2, amended: on a failed `connect` (either provider step), exactly one
`error` response is emitted, but the bound identifier is set to the fresh id
and kept (not discarded); establishment failure leaves the registry
unchanged, while shell-open failure leaves the newly created session
registered without a shell; a subsequent non-empty `command` then emits
`Shell not available` (not `No active session`) and writes nothing, a
subsequent `resize` emits nothing, and a subsequent `disconnect` emits one
`disconnected` and clears the binding. -/
theorem connectFailure_amended
    (st : BridgeState) (msg : SSHMessage) (env : Env) (cfg : SSHConnectionConfig)
    (htype : msg.type = "connect") (hcfg : msg.config = some cfg)
    (hws : st.wsOpen = true)
    (hfresh : mapGet st.sessions env.newSessionId = none)
    (hfail : (∃ e, env.connectResult = .error e) ∨
      (∃ h e, env.connectResult = .ok h ∧ env.shellResult = .error e)) :
    (∃ e, (handleMessage st msg env).2.1 = [SSHResponse.error e]) ∧
    (handleMessage st msg env).1.sessionId = some env.newSessionId ∧
    (∀ e, env.connectResult = .error e →
      (handleMessage st msg env).1.sessions = st.sessions) ∧
    (∀ h e, env.connectResult = .ok h → env.shellResult = .error e →
      mapGet (handleMessage st msg env).1.sessions env.newSessionId =
        some { id := env.newSessionId, connection := h, shell := none, isConnected := true }) ∧
    (∀ msg2 env2, msg2.type = "command" → jsFalsyStr msg2.command = false →
      (handleMessage (handleMessage st msg env).1 msg2 env2).2.1 =
        [SSHResponse.error "Shell not available"] ∧
      (handleMessage (handleMessage st msg env).1 msg2 env2).2.2 = []) ∧
    (∀ msg2 env2, msg2.type = "resize" →
      (handleMessage (handleMessage st msg env).1 msg2 env2).2.1 = []) ∧
    (∀ msg2 env2, msg2.type = "disconnect" →
      (handleMessage (handleMessage st msg env).1 msg2 env2).2.1 =
        [SSHResponse.disconnected] ∧
      (handleMessage (handleMessage st msg env).1 msg2 env2).1.sessionId = none) := by
  have hk : msgKind msg.type = .connect := by rw [htype]; decide
  rcases hfail with ⟨e, he⟩ | ⟨h, e, hok, her⟩
  · -- establishment itself fails
    have hc : createSession st.sessions env.newSessionId cfg env.connectResult =
        .error ("SSH connection failed: " ++ e) := by
      rw [he]
      rfl
    have hstep : handleMessage st msg env =
        ({ st with sessionId := some env.newSessionId },
         [SSHResponse.error ("SSH connection failed: " ++ e)], []) := by
      simp only [handleMessage, hk, hcfg, hc]
      simp [sendResponse, hws]
    refine ⟨⟨"SSH connection failed: " ++ e, by rw [hstep]⟩, by rw [hstep], ?_, ?_, ?_, ?_, ?_⟩
    · intro e2 _
      rw [hstep]
    · intro h2 e2 hok2 _
      rw [he] at hok2
      cases hok2
    · intro msg2 env2 ht2 hf2
      have hk2 : msgKind msg2.type = .command := by rw [ht2]; decide
      rw [hstep]
      simp [handleMessage, hk2, hf2, hfresh, sendResponse, hws]
    · intro msg2 env2 ht2
      have hk2 : msgKind msg2.type = .resize := by rw [ht2]; decide
      rw [hstep]
      simp [handleMessage, hk2, resizeShell, hfresh]
    · intro msg2 env2 ht2
      have hk2 : msgKind msg2.type = .disconnect := by rw [ht2]; decide
      rw [hstep]
      simp [handleMessage, hk2, closeSession, hfresh, sendResponse, hws]
  · -- establishment succeeds, shell opening fails
    have hc : createSession st.sessions env.newSessionId cfg env.connectResult =
        .ok ({ id := env.newSessionId, connection := h, shell := none, isConnected := true },
          mapSet st.sessions env.newSessionId
            { id := env.newSessionId, connection := h, shell := none, isConnected := true }) := by
      rw [hok]
      rfl
    have hcs : createShell
        (mapSet st.sessions env.newSessionId
          { id := env.newSessionId, connection := h, shell := none, isConnected := true })
        env.newSessionId 80 24 env.shellResult =
        .error ("Failed to create shell: " ++ e) := by
      rw [createShell, mapGet_mapSet_self]
      simp [her]
    have hstep : handleMessage st msg env =
        ({ sessionId := some env.newSessionId,
           sessions := mapSet st.sessions env.newSessionId
             { id := env.newSessionId, connection := h, shell := none, isConnected := true },
           wsOpen := st.wsOpen },
         [SSHResponse.error ("Failed to create shell: " ++ e)], []) := by
      simp only [handleMessage, hk, hcfg, hc, hcs]
      simp [sendResponse, hws]
    refine ⟨⟨"Failed to create shell: " ++ e, by rw [hstep]⟩, by rw [hstep], ?_, ?_, ?_, ?_, ?_⟩
    · intro e2 he2
      rw [hok] at he2
      cases he2
    · intro h2 e2 hok2 her2
      rw [hok] at hok2
      cases hok2
      rw [hstep]
      simpa using mapGet_mapSet_self _ _ _
    · intro msg2 env2 ht2 hf2
      have hk2 : msgKind msg2.type = .command := by rw [ht2]; decide
      rw [hstep]
      simp [handleMessage, hk2, hf2, mapGet_mapSet_self, sendResponse, hws]
    · intro msg2 env2 ht2
      have hk2 : msgKind msg2.type = .resize := by rw [ht2]; decide
      rw [hstep]
      simp [handleMessage, hk2, resizeShell, mapGet_mapSet_self]
    · intro msg2 env2 ht2
      have hk2 : msgKind msg2.type = .disconnect := by rw [ht2]; decide
      rw [hstep]
      simp [handleMessage, hk2, closeSession, mapGet_mapSet_self, sendResponse, hws]

/-- A registered session with an attached shell, for concrete runs. -/
def sessW : SSHSession :=
  { id := "s1", connection := 7, shell := some 3, isConnected := true }

/-- Bridge state with `sessW` registered and bound, socket open. -/
def stW : BridgeState :=
  { sessionId := some "s1", sessions := [("s1", sessW)], wsOpen := true }

/-- Fresh bridge state: nothing bound, empty registry, socket open. -/
def st0 : BridgeState :=
  { sessionId := none, sessions := [], wsOpen := true }

/-- A concrete connection config. -/
def cfgW : SSHConnectionConfig :=
  { host := "h", port := 22, username := "u", password := some "p",
    privateKey := none, passphrase := none }

/-- Environment where both provider steps succeed. -/
def envW : Env :=
  { newSessionId := "s1", connectResult := .ok 7, shellResult := .ok 3,
    writeResult := .ok (), setWindowThrows := false, endThrows := false,
    disposeThrows := false }

/-- Environment where `requestShell` fails after a successful `connect`. -/
def envShellFailW : Env :=
  { envW with shellResult := .error "boom" }

/-- Environment where `setWindow` throws. -/
def envSetWinFailW : Env :=
  { envW with setWindowThrows := true }

def msgConnectW : SSHMessage :=
  { type := "connect", config := some cfgW, command := none, cols := none, rows := none }

def msgCommandW : SSHMessage :=
  { type := "command", config := none, command := some "ls", cols := none, rows := none }

def msgEmptyCmdW : SSHMessage :=
  { type := "command", config := none, command := some "", cols := none, rows := none }

def msgResizeW : SSHMessage :=
  { type := "resize", config := none, command := none, cols := some 120, rows := some 40 }

def msgDisconnectW : SSHMessage :=
  { type := "disconnect", config := none, command := none, cols := none, rows := none }

/-- C2 counterexample: a `connect` whose shell opening fails (provider
`connect` succeeded) emits the error, but the created session stays in the
registry, the bound identifier is kept, and a subsequent `command` answers
`Shell not available`, not the no-active-session behaviour the claim
requires. -/
theorem connectFailure_claim_counterexample :
    (handleMessage st0 msgConnectW envShellFailW).2.1 =
      [SSHResponse.error "Failed to create shell: boom"] ∧
    (handleMessage st0 msgConnectW envShellFailW).1.sessions ≠ [] ∧
    (handleMessage st0 msgConnectW envShellFailW).1.sessionId ≠ none ∧
    (handleMessage (handleMessage st0 msgConnectW envShellFailW).1 msgCommandW
        envShellFailW).2.1 ≠ [SSHResponse.error "No active session"] ∧
    (handleMessage (handleMessage st0 msgConnectW envShellFailW).1 msgCommandW
        envShellFailW).2.1 = [SSHResponse.error "Shell not available"] := by
  decide

theorem shellClose_exit_code_asymmetry_witness :
    onShellClose stW (some 0) none false false = (stW, [], []) ∧
    (onShellClose stW (some 1) none false false).2.1 = [SSHResponse.disconnected] ∧
    mapGet (onShellClose stW (some 1) none false false).1.sessions "s1" = none :=
  ⟨(shellClose_exit_code_asymmetry stW (some 0) none false false "s1" rfl rfl).1
      (Or.inr rfl),
   ((shellClose_exit_code_asymmetry stW (some 1) none false false "s1" rfl rfl).2
      1 rfl (by decide)).1,
   ((shellClose_exit_code_asymmetry stW (some 1) none false false "s1" rfl rfl).2
      1 rfl (by decide)).2⟩

theorem connectFailure_amended_witness :
    (∃ e, (handleMessage st0 msgConnectW envShellFailW).2.1 = [SSHResponse.error e]) ∧
    (handleMessage st0 msgConnectW envShellFailW).1.sessionId = some "s1" ∧
    mapGet (handleMessage st0 msgConnectW envShellFailW).1.sessions "s1" =
      some { id := "s1", connection := 7, shell := none, isConnected := true } ∧
    (handleMessage (handleMessage st0 msgConnectW envShellFailW).1 msgCommandW
        envShellFailW).2.1 = [SSHResponse.error "Shell not available"] :=
  ⟨(connectFailure_amended st0 msgConnectW envShellFailW cfgW rfl rfl rfl rfl
      (Or.inr ⟨7, "boom", rfl, rfl⟩)).1,
   (connectFailure_amended st0 msgConnectW envShellFailW cfgW rfl rfl rfl rfl
      (Or.inr ⟨7, "boom", rfl, rfl⟩)).2.1,
   (connectFailure_amended st0 msgConnectW envShellFailW cfgW rfl rfl rfl rfl
      (Or.inr ⟨7, "boom", rfl, rfl⟩)).2.2.2.1 7 "boom" rfl rfl,
   ((connectFailure_amended st0 msgConnectW envShellFailW cfgW rfl rfl rfl rfl
      (Or.inr ⟨7, "boom", rfl, rfl⟩)).2.2.2.2.1 msgCommandW envShellFailW rfl
      (by decide)).1⟩

theorem closeSession_idempotent_witness :
    mapGet (closeSession [("s1", sessW)] "s1" false false).1 "s1" = none ∧
    closeSession (closeSession [("s1", sessW)] "s1" false false).1 "s1" false false =
      ((closeSession [("s1", sessW)] "s1" false false).1, []) ∧
    ((closeSession [("s1", sessW)] "s1" false false).2 ++
        (closeSession (closeSession [("s1", sessW)] "s1" false false).1 "s1" false
          false).2).count (Effect.shellEnd "s1") = 1 :=
  ⟨(closeSession_idempotent [("s1", sessW)] "s1" false false false false sessW rfl).1,
   (closeSession_idempotent [("s1", sessW)] "s1" false false false false sessW rfl).2.1,
   (closeSession_idempotent [("s1", sessW)] "s1" false false false false sessW rfl).2.2.1
     rfl⟩

theorem shellError_reports_and_removes_witness :
    (onShellError stW "shell broke" false false).2.1 =
      [SSHResponse.error "shell broke"] ∧
    mapGet (onShellError stW "shell broke" false false).1.sessions "s1" = none :=
  shellError_reports_and_removes stW "shell broke" false false "s1" rfl rfl

theorem connectSuccess_connected_with_id_witness :
    (handleMessage st0 msgConnectW envW).2.1 = [SSHResponse.connected (some "s1")] ∧
    mapGet (handleMessage st0 msgConnectW envW).1.sessions "s1" =
      some { id := "s1", connection := 7, shell := some 3, isConnected := true } ∧
    (handleMessage st0 msgConnectW envW).1.sessionId = some "s1" :=
  connectSuccess_connected_with_id st0 msgConnectW envW cfgW 7 3 rfl rfl rfl rfl rfl

theorem closeSession_removes_despite_release_errors_witness :
    (closeSession [("s1", sessW)] "s1" true true).1 = mapDelete [("s1", sessW)] "s1" ∧
    mapGet (closeSession [("s1", sessW)] "s1" true true).1 "s1" = none :=
  closeSession_removes_despite_release_errors [("s1", sessW)] "s1" true true sessW rfl

theorem resize_never_surfaces_errors_witness :
    (handleMessage stW msgResizeW envSetWinFailW).1 = stW ∧
    (handleMessage stW msgResizeW envSetWinFailW).2.1 = [] :=
  resize_never_surfaces_errors stW msgResizeW envSetWinFailW "s1" rfl rfl

theorem parseFailure_single_error_no_change_witness :
    handleFrame stW (Except.error "bad json") envW =
      (stW, [SSHResponse.error "Invalid message format"], []) :=
  parseFailure_single_error_no_change stW "bad json" envW rfl

theorem emptyCommand_rejected_without_write_witness :
    handleMessage stW msgEmptyCmdW envW = (stW, [SSHResponse.error "Command required"], []) :=
  emptyCommand_rejected_without_write stW msgEmptyCmdW envW "s1" rfl rfl rfl rfl

theorem disconnect_without_session_still_acknowledged_witness :
    handleMessage st0 msgDisconnectW envW = (st0, [SSHResponse.disconnected], []) :=
  disconnect_without_session_still_acknowledged st0 msgDisconnectW envW rfl rfl rfl
